import Mathlib

/-!
Verification of the Fincoach onboarding backend: OTP workflow
(`otp-service.js`), notification dispatch, auth routes, and the
financial-profile intake route.  Times are modelled as integer millisecond
timestamps (JS `Date` arithmetic); SQL tables as Lean lists of rows;
fallible store access as `Except`.
-/

/-- One row of an OTP table (`otp_codes`, `email_otp_codes`,
`custom_otp_codes`): columns per `SUPABASE_SETUP.sql` / `db.js`. -/
structure OTPRow where
  id : Nat
  identifier : String
  otp : String
  otp_token : String
  expires_at : Int
  is_used : Bool
  attempts : Nat
  verified_at : Option Int
  created_at : Int
  deriving DecidableEq, Repr

/-- `MAX_ATTEMPTS` from the `OTPService` constructor. -/
def MAX_ATTEMPTS : Nat := 5

/-- The row predicate of the `verifyOTP` lookup query:
`WHERE identifier = ? AND otp_token = ? AND is_used = 0`. -/
def activeMatch (identifier token : String) (r : OTPRow) : Prop :=
  r.identifier = identifier ∧ r.otp_token = token ∧ r.is_used = false

instance (identifier token : String) (r : OTPRow) :
    Decidable (activeMatch identifier token r) := by
  unfold activeMatch; infer_instance

/-- The `verifyOTP` lookup: the matching unused row with the greatest
`created_at` (`ORDER BY created_at DESC LIMIT 1`). -/
def findLatest (identifier token : String) : List OTPRow → Option OTPRow
  | [] => none
  | r :: rest =>
    let best := findLatest identifier token rest
    if activeMatch identifier token r then
      match best with
      | none => some r
      | some b => if b.created_at < r.created_at then some r else some b
    else best

/-- Outcome codes of `OTPService.verifyOTP`. -/
inductive VerifyOutcome
  | invalidOtp
  | expiredOtp
  | maxAttemptsExceeded
  | wrongOtp (remainingAttempts : Nat)
  | verified
  deriving DecidableEq, Repr

/-- `OTPService.verifyOTP` as a pure state transformer on one OTP table.
Mirrors the source: lookup; no row → `INVALID_OTP`; `now > expires_at` →
`EXPIRED_OTP`; `attempts >= MAX_ATTEMPTS` → `MAX_ATTEMPTS_EXCEEDED`;
stored code ≠ claimed code → increment that row's attempts and return
`WRONG_OTP` with `remainingAttempts = MAX_ATTEMPTS - (attempts + 1)`;
otherwise mark the row used with `verified_at = now` and return
`VERIFIED`. -/
def verifyOTP (now : Int) (identifier otp token : String)
    (store : List OTPRow) : VerifyOutcome × List OTPRow :=
  match findLatest identifier token store with
  | none => (.invalidOtp, store)
  | some r =>
    if now > r.expires_at then (.expiredOtp, store)
    else if r.attempts ≥ MAX_ATTEMPTS then (.maxAttemptsExceeded, store)
    else if r.otp ≠ otp then
      (.wrongOtp (MAX_ATTEMPTS - (r.attempts + 1)),
        store.map fun row =>
          if row.id = r.id then { row with attempts := row.attempts + 1 }
          else row)
    else
      (.verified,
        store.map fun row =>
          if row.id = r.id then
            { row with is_used := true, verified_at := some now }
          else row)

/-- A sample stored row used by concrete witnesses: unused, expires at
600000 ms, 5 prior wrong attempts, correct code `"482913"`. -/
def rowMaxed : OTPRow :=
  { id := 1, identifier := "+15551234567", otp := "482913",
    otp_token := "tokA", expires_at := 600000, is_used := false,
    attempts := 5, verified_at := none, created_at := 0 }

/-- A live row used by concrete witnesses: unused, unexpired at times below
600000 ms, 3 prior attempts, stored code `"482913"`. -/
def rowLive : OTPRow :=
  { id := 2, identifier := "+15551234567", otp := "482913",
    otp_token := "tokB", expires_at := 600000, is_used := false,
    attempts := 3, verified_at := none, created_at := 0 }

/-- The row predicate of the `isVerificationValid` lookup query:
`WHERE identifier = ? AND otp_token = ? AND is_used = 1`. -/
def verifiedMatch (identifier token : String) (r : OTPRow) : Prop :=
  r.identifier = identifier ∧ r.otp_token = token ∧ r.is_used = true

instance (identifier token : String) (r : OTPRow) :
    Decidable (verifiedMatch identifier token r) := by
  unfold verifiedMatch; infer_instance

/-- SQLite ordering on a nullable column: `NULL` sorts below every
value, so `ORDER BY verified_at DESC LIMIT 1` picks the greatest in this
order. -/
def nullsFirstLt (a b : Option Int) : Prop :=
  match b with
  | none => False
  | some y =>
    match a with
    | none => True
    | some x => x < y

instance : (a b : Option Int) → Decidable (nullsFirstLt a b)
  | _, none => .isFalse fun h => h
  | none, some _ => .isTrue trivial
  | some x, some y => inferInstanceAs (Decidable (x < y))

/-- Combine one candidate row with the best row seen so far, keeping the
one with the greater `verified_at`. -/
def chooseLater (r : OTPRow) : Option OTPRow → Option OTPRow
  | none => some r
  | some b => if nullsFirstLt b.verified_at r.verified_at then some r else some b

/-- The `isVerificationValid` lookup: the matching used row with the
greatest `verified_at` (`ORDER BY verified_at DESC LIMIT 1`). -/
def findLatestVerified (identifier token : String) :
    List OTPRow → Option OTPRow
  | [] => none
  | r :: rest =>
    if verifiedMatch identifier token r then
      chooseLater r (findLatestVerified identifier token rest)
    else findLatestVerified identifier token rest

/-- `OTPService.isVerificationValid`: look up the latest used matching row;
no row or a null `verified_at` yields `false`; otherwise compare the
elapsed minutes `(now - verified_at) / 1000 / 60` against `maxMinutes`.
The default `maxMinutes` in the source is 15. -/
def isVerificationValid (now : Int) (identifier token : String)
    (maxMinutes : ℚ) (store : List OTPRow) : Bool :=
  match findLatestVerified identifier token store with
  | none => false
  | some r =>
    match r.verified_at with
    | none => false
    | some v => decide (((now - v : Int) : ℚ) / 1000 / 60 ≤ maxMinutes)

/-- A used row verified at time 0, used by concrete witnesses. -/
def rowVerified : OTPRow :=
  { id := 3, identifier := "+15551234567", otp := "482913",
    otp_token := "tokC", expires_at := 600000, is_used := true,
    attempts := 0, verified_at := some 0, created_at := 0 }

/-- Result object of `NotificationService.sendSMS` / `sendEmail`: the JSON
shape `{success, messageId?, fallback?, development?}`. -/
structure SendResult where
  success : Bool
  messageId : Option String
  fallback : Bool
  development : Bool
  deriving DecidableEq, Repr

/-- `NotificationService.sendSMS`: when SMS is enabled and the Twilio
client is configured, attempt delivery (`delivery` is the provider call's
outcome); on provider error fall back to console logging and still report
success; when not configured, log to console and report success. -/
def sendSMS (enableSMS hasTwilioClient : Bool)
    (delivery : Except String String) : SendResult :=
  if enableSMS && hasTwilioClient then
    match delivery with
    | .ok sid =>
      { success := true, messageId := some sid, fallback := false,
        development := false }
    | .error _ =>
      { success := true, messageId := none, fallback := true,
        development := false }
  else
    { success := true, messageId := none, fallback := false,
      development := true }

/-- `NotificationService.sendEmail`: same structure as `sendSMS` with the
nodemailer transporter. -/
def sendEmail (enableEmail hasTransporter : Bool)
    (delivery : Except String String) : SendResult :=
  if enableEmail && hasTransporter then
    match delivery with
    | .ok mid =>
      { success := true, messageId := some mid, fallback := false,
        development := false }
    | .error _ =>
      { success := true, messageId := none, fallback := true,
        development := false }
  else
    { success := true, messageId := none, fallback := false,
      development := true }

/-- `OTPService.invalidateOTPs` on one table: mark every row for the
identifier as used (`UPDATE ... SET is_used = 1 WHERE identifier = ?`). -/
def invalidateOTPs (identifier : String) (store : List OTPRow) :
    List OTPRow :=
  store.map fun r =>
    if r.identifier = identifier then { r with is_used := true } else r

/-- The three OTP tables (`otp_codes`, `email_otp_codes`,
`custom_otp_codes`). -/
structure OTPStore where
  otp_codes : List OTPRow
  email_otp_codes : List OTPRow
  custom_otp_codes : List OTPRow
  deriving DecidableEq, Repr

/-- Milliseconds in one day, the age cutoff of the cleanup sweep. -/
def DAY_MS : Int := 86400000

/-- UTC day number of a millisecond timestamp: the floor quotient by
`DAY_MS`. Two timestamps render the same `YYYY-MM-DD` prefix iff they have
the same day number, and the prefixes order bytewise as the day numbers
order. -/
def utcDay (t : Int) : Int := t.fdiv DAY_MS

/-- `OTPService.cleanupExpiredOTPs` with no type argument: across all three
tables, `DELETE FROM t WHERE expires_at < datetime('now', '-1 day')`.
`expires_at` is stored by `storeOTP` as `Date.prototype.toISOString()`
text (`YYYY-MM-DDTHH:MM:SS.sssZ`) while `datetime('now', '-1 day')` is
`YYYY-MM-DD HH:MM:SS` text, so SQLite compares the two strings bytewise:
the ten-byte date prefixes order chronologically, and on equal dates the
row's `T` (0x54) exceeds the cutoff's space (0x20), making the row compare
greater. The clause therefore deletes a row iff the row's expiry UTC day
(`utcDay`) strictly precedes the cutoff instant's UTC day — not iff the
expiry is more than 24 hours in the past. -/
def cleanupExpiredOTPs (now : Int) (s : OTPStore) : OTPStore :=
  { otp_codes :=
      s.otp_codes.filter fun r =>
        !(decide (utcDay r.expires_at < utcDay (now - DAY_MS))),
    email_otp_codes :=
      s.email_otp_codes.filter fun r =>
        !(decide (utcDay r.expires_at < utcDay (now - DAY_MS))),
    custom_otp_codes :=
      s.custom_otp_codes.filter fun r =>
        !(decide (utcDay r.expires_at < utcDay (now - DAY_MS))) }

/-- A row whose expiry (day 1, 00:00 UTC) is 36 hours before the sweep
instant used in the counterexample (day 2, 12:00 UTC), yet falls on the
same UTC day as that instant minus 24 hours. -/
def rowStale : OTPRow :=
  { id := 4, identifier := "+15551234567", otp := "111111",
    otp_token := "tokD", expires_at := 86400000, is_used := false,
    attempts := 0, verified_at := none, created_at := 0 }

/-- A row expiring at the epoch (day 0), deleted by a sweep on day 2. -/
def rowEpoch : OTPRow :=
  { id := 5, identifier := "+15551234567", otp := "222222",
    otp_token := "tokE", expires_at := 0, is_used := false,
    attempts := 0, verified_at := none, created_at := 0 }

/-- `OTPService.verifyOTP` seen from its caller, with the possibility of a
store failure: the surrounding try/catch rethrows a store error as
`Error('Failed to verify OTP')`. -/
def verifyOTPRun (storeFailure : Bool) (now : Int)
    (identifier otp token : String) (store : List OTPRow) :
    Except String (VerifyOutcome × List OTPRow) :=
  if storeFailure then .error "Failed to verify OTP"
  else .ok (verifyOTP now identifier otp token store)

/-- `OTPService.isVerificationValid` seen from its caller: its catch block
absorbs a store error and returns `false` as a normal result. -/
def isVerificationValidRun (storeFailure : Bool) (now : Int)
    (identifier token : String) (maxMinutes : ℚ) (store : List OTPRow) :
    Except String Bool :=
  if storeFailure then .ok false
  else .ok (isVerificationValid now identifier token maxMinutes store)

/-- `OTPService.invalidateOTPs` seen from its caller: its catch block
absorbs a store error and returns normally with no row updated. -/
def invalidateOTPsRun (storeFailure : Bool) (identifier : String)
    (store : List OTPRow) : Except String (List OTPRow) :=
  if storeFailure then .ok store else .ok (invalidateOTPs identifier store)

/-- `OTPService.cleanupExpiredOTPs` seen from its caller: its catch block
absorbs a store error and returns normally with no row deleted. -/
def cleanupExpiredOTPsRun (storeFailure : Bool) (now : Int) (s : OTPStore) :
    Except String OTPStore :=
  if storeFailure then .ok s else .ok (cleanupExpiredOTPs now s)

/-- Two-digit zero-padded rendering of a residue below 100. -/
def pad2 (n : Nat) : String :=
  if n < 10 then "0" ++ toString n else toString n

/-- JS `Number.prototype.toFixed(2)` on a nonnegative rational: the integer
`n` nearest to `q * 100`, ties picking the larger, rendered with two
decimals. -/
def toFixed2Nonneg (q : ℚ) : String :=
  let n : Int := Int.floor (q * 100 + 1 / 2)
  toString (n / 100) ++ "." ++ pad2 (n % 100).toNat

/-- JS `Number.prototype.toFixed(2)`: negative arguments format the negated
value behind a minus sign. -/
def toFixed2 (q : ℚ) : String :=
  if q < 0 then "-" ++ toFixed2Nonneg (-q) else toFixed2Nonneg q

/-- A JSON field that may hold a string or a number, the type of the
`savingsRate` summary field (`toFixed(2)` string, or the number 0). -/
inductive JsonNumOrStr
  | str (s : String)
  | num (q : ℚ)
  deriving DecidableEq, Repr

/-- The `summary` object of the `POST /api/financial-profile` response. -/
structure ProfileSummary where
  totalIncome : ℚ
  totalExpenses : ℚ
  netIncome : ℚ
  savingsRate : JsonNumOrStr
  deriving DecidableEq, Repr

/-- The summary computed by the `POST /api/financial-profile` handler from
the caller-supplied totals: `savingsRate` is
`totalIncome > 0 ? ((netIncome / totalIncome) * 100).toFixed(2) : 0`. -/
def profileSummary (totalIncome totalExpenses netIncome : ℚ) :
    ProfileSummary :=
  { totalIncome := totalIncome, totalExpenses := totalExpenses,
    netIncome := netIncome,
    savingsRate :=
      if 0 < totalIncome then
        .str (toFixed2 (netIncome / totalIncome * 100))
      else .num 0 }

/-- The totals the intake page computes before submitting (the
`onboardingForm` submit handler, `db.js`): `totalIncome = monthlyIncome +
additionalIncomeAmount`, `totalExpenses = housingCost + utilities +
transportation + groceries + otherExpenses + monthlyDebtPayment`,
`netIncome = totalIncome - totalExpenses`. Returns
`(totalIncome, totalExpenses, netIncome)`. -/
def clientTotals (monthlyIncome additionalIncomeAmount housingCost
    utilities transportation groceries otherExpenses
    monthlyDebtPayment : ℚ) : ℚ × ℚ × ℚ :=
  let totalIncome := monthlyIncome + additionalIncomeAmount
  let totalExpenses := housingCost + utilities + transportation +
    groceries + otherExpenses + monthlyDebtPayment
  (totalIncome, totalExpenses, totalIncome - totalExpenses)

/-- One row of the `users` table. -/
structure User where
  id : Nat
  name : String
  email : String
  mobile : String
  password : String
  passkey : Option String
  is_active : Bool
  deriving DecidableEq, Repr

/-- The signup duplicate lookup:
`SELECT * FROM users WHERE email = ? OR mobile = ?` — the first table row
matching either column. -/
def findUserByEmailOrMobile (users : List User) (email mobile : String) :
    Option User :=
  users.find? fun u => u.email = email || u.mobile = mobile

/-- The duplicate branch of `POST /api/auth/signup`: if the lookup finds a
row, respond 400 with a message chosen by whether that row's email equals
the submitted email. `none` means no duplicate (the handler proceeds to
insert). -/
def signupDuplicateCheck (users : List User) (email mobile : String) :
    Option (Nat × String) :=
  match findUserByEmailOrMobile users email mobile with
  | none => none
  | some u =>
    some (400,
      if u.email = email then "User with this email already exists"
      else "User with this mobile number already exists")

/-- Stand-in for `bcrypt.hash(passkey, salt)`: deterministic in the salt
and the passkey; its internals are irrelevant to the claims. -/
def bcryptHashModel (salt passkey : String) : String :=
  salt ++ "$" ++ passkey

/-- HTTP outcome of `POST /api/auth/set-passkey`. -/
inductive SetPasskeyResult
  | badRequest (message : String)
  | notFound (message : String)
  | ok (message : String)
  deriving DecidableEq, Repr

/-- The user lookup of `set-passkey`:
`SELECT * FROM users WHERE email = ?`. -/
def findUserByEmail (users : List User) (email : String) : Option User :=
  users.find? fun u => u.email = email

/-- The `POST /api/auth/set-passkey` handler: reject a missing (falsy,
hence empty-string) email or passkey with 400, a short passkey with 400,
an unknown email with 404; otherwise overwrite the account's passkey with
the new hash and report success. The handler consults no session token,
password, or prior verification: its only inputs are the request body and
the store. -/
def setPasskey (salt : String) (users : List User)
    (email passkey : String) : SetPasskeyResult × List User :=
  if email = "" ∨ passkey = "" then
    (.badRequest "Email and passkey are required", users)
  else if passkey.length < 8 then
    (.badRequest "Passkey must be at least 8 characters", users)
  else
    match findUserByEmail users email with
    | none => (.notFound "User not found", users)
    | some u =>
      (.ok "Security passkey set successfully",
        users.map fun w =>
          if w.id = u.id then
            { w with passkey := some (bcryptHashModel salt passkey) }
          else w)

/-- Concrete account A: email `a@x.com`, mobile `111`. -/
def userA : User :=
  { id := 1, name := "A", email := "a@x.com", mobile := "111",
    password := "hashA", passkey := none, is_active := true }

/-- Concrete account B: email `b@x.com`, mobile `222`. -/
def userB : User :=
  { id := 2, name := "B", email := "b@x.com", mobile := "222",
    password := "hashB", passkey := none, is_active := true }

/-- C1: once the looked-up row has recorded `MAX_ATTEMPTS` attempts (and is
unexpired), `verifyOTP` returns `MAX_ATTEMPTS_EXCEEDED` with the store
untouched, for every claimed code — the code is never compared; and the
checks run in priority order: no matching row → `INVALID_OTP`, then expiry
→ `EXPIRED_OTP` (regardless of attempts or code), then the attempts cap,
then the code comparison. -/
theorem verifyOTP_priority_maxAttempts
    (now : Int) (identifier otp token : String) (store : List OTPRow) :
    (findLatest identifier token store = none →
      verifyOTP now identifier otp token store = (.invalidOtp, store)) ∧
    (∀ r, findLatest identifier token store = some r →
      now > r.expires_at →
      verifyOTP now identifier otp token store = (.expiredOtp, store)) ∧
    (∀ r, findLatest identifier token store = some r →
      ¬ now > r.expires_at →
      r.attempts ≥ MAX_ATTEMPTS →
      verifyOTP now identifier otp token store =
        (.maxAttemptsExceeded, store)) := by
  refine ⟨fun h => ?_, fun r h hexp => ?_, fun r h hexp hatt => ?_⟩
  · simp [verifyOTP, h]
  · simp [verifyOTP, h, hexp]
  · simp [verifyOTP, h, hexp, hatt]

/-- Witness for C1 at a concrete row with `attempts = 5` and a claimed code
equal to the stored code: the result is still `MAX_ATTEMPTS_EXCEEDED`. -/
theorem verifyOTP_priority_maxAttempts_witness :
    verifyOTP 1000 "+15551234567" "482913" "tokA" [rowMaxed] =
      (.maxAttemptsExceeded, [rowMaxed]) :=
  (verifyOTP_priority_maxAttempts 1000 "+15551234567" "482913" "tokA"
    [rowMaxed]).2.2 rowMaxed (by decide) (by decide) (by decide)

/-- C2: a wrong code on a live row (unused match, unexpired, under the
attempts cap) returns `WRONG_OTP` with `remainingAttempts`
`= MAX_ATTEMPTS - (attempts + 1)` and increments exactly that row's
`attempts` field, changing nothing else in the store. -/
theorem verifyOTP_wrongOtp
    (now : Int) (identifier otp token : String) (store : List OTPRow)
    (r : OTPRow)
    (hfind : findLatest identifier token store = some r)
    (hexp : ¬ now > r.expires_at)
    (hatt : r.attempts < MAX_ATTEMPTS)
    (hne : r.otp ≠ otp) :
    verifyOTP now identifier otp token store =
      (.wrongOtp (MAX_ATTEMPTS - (r.attempts + 1)),
        store.map fun row =>
          if row.id = r.id then { row with attempts := row.attempts + 1 }
          else row) := by
  simp [verifyOTP, hfind, hexp, Nat.not_le.mpr hatt, hne]

/-- Witness for C2: a row with 3 prior attempts and stored code `"482913"`,
claimed code `"000000"`, yields `WRONG_OTP` with 1 remaining attempt and
the attempts counter bumped to 4. -/
theorem verifyOTP_wrongOtp_witness :
    verifyOTP 1000 "+15551234567" "000000" "tokB" [rowLive] =
      (.wrongOtp 1, [{ rowLive with attempts := 4 }]) := by
  have h := verifyOTP_wrongOtp 1000 "+15551234567" "000000" "tokB"
    [rowLive] rowLive (by decide) (by decide) (by decide) (by decide)
  simpa using h

/-- If no row of the table satisfies the lookup predicate, the lookup
returns no row. -/
theorem findLatest_eq_none (identifier token : String) (store : List OTPRow)
    (h : ∀ w ∈ store, ¬ activeMatch identifier token w) :
    findLatest identifier token store = none := by
  induction store with
  | nil => rfl
  | cons r rest ih =>
    have hr : ¬ activeMatch identifier token r := h r (List.mem_cons_self r rest)
    have hrest := ih fun w hw => h w (List.mem_cons_of_mem r hw)
    simp [findLatest, hr, hrest]

/-- When the lookup finds no row, `verifyOTP` reports `INVALID_OTP` and
leaves the store unchanged. -/
theorem verifyOTP_invalid_of_none
    (now : Int) (identifier otp token : String) (store : List OTPRow)
    (h : findLatest identifier token store = none) :
    verifyOTP now identifier otp token store = (.invalidOtp, store) := by
  simp [verifyOTP, h]

/-- C3: a correct code on a live row returns `VERIFIED` and marks the row
used with `verified_at = now`; afterwards — provided the row was the only
unused row for its `(identifier, token)` pair, the lookup-time invariant —
every later `verifyOTP` call with the same pair finds no unused matching
row, returns `INVALID_OTP`, and leaves the store unchanged, so `VERIFIED`
is returned at most once per row. -/
theorem verifyOTP_verified_once
    (now : Int) (identifier otp token : String) (store : List OTPRow)
    (r : OTPRow)
    (hfind : findLatest identifier token store = some r)
    (hexp : ¬ now > r.expires_at)
    (hatt : r.attempts < MAX_ATTEMPTS)
    (heq : r.otp = otp)
    (huniq : ∀ w ∈ store, activeMatch identifier token w → w.id = r.id) :
    verifyOTP now identifier otp token store =
      (.verified,
        store.map fun row =>
          if row.id = r.id then
            { row with is_used := true, verified_at := some now }
          else row) ∧
    (∀ (later : Int) (claimed : String),
      verifyOTP later identifier claimed token
          ((verifyOTP now identifier otp token store).2) =
        (.invalidOtp, (verifyOTP now identifier otp token store).2)) := by
  have hrun : verifyOTP now identifier otp token store =
      (.verified,
        store.map fun row =>
          if row.id = r.id then
            { row with is_used := true, verified_at := some now }
          else row) := by
    simp [verifyOTP, hfind, hexp, Nat.not_le.mpr hatt, heq]
  refine ⟨hrun, fun later claimed => ?_⟩
  have hnone : findLatest identifier token
      ((verifyOTP now identifier otp token store).2) = none := by
    apply findLatest_eq_none
    intro w hw
    rw [hrun] at hw
    simp only [List.mem_map] at hw
    obtain ⟨row, hrow, hweq⟩ := hw
    by_cases hid : row.id = r.id
    · subst hweq
      simp only [hid, if_pos rfl]
      intro hm
      simp [activeMatch] at hm
    · subst hweq
      simp only [hid, if_neg hid]
      intro hm
      exact hid (huniq row hrow hm)
  exact verifyOTP_invalid_of_none later identifier claimed token _ hnone

/-- Witness for C3: verifying `rowLive` with its correct code succeeds,
marks it used, and a second call with the same token is `INVALID_OTP`. -/
theorem verifyOTP_verified_once_witness :
    verifyOTP 1000 "+15551234567" "482913" "tokB" [rowLive] =
      (.verified,
        [{ rowLive with is_used := true, verified_at := some 1000 }]) ∧
    verifyOTP 2000 "+15551234567" "482913" "tokB"
        ((verifyOTP 1000 "+15551234567" "482913" "tokB" [rowLive]).2) =
      (.invalidOtp,
        (verifyOTP 1000 "+15551234567" "482913" "tokB" [rowLive]).2) := by
  have h := verifyOTP_verified_once 1000 "+15551234567" "482913" "tokB"
    [rowLive] rowLive (by decide) (by decide) (by decide) (by decide)
    (by decide)
  exact ⟨by simpa using h.1, h.2 2000 "482913"⟩


/-- `nullsFirstLt` is irreflexive. -/
theorem nullsFirstLt_irrefl (a : Option Int) : ¬ nullsFirstLt a a := by
  cases a <;> simp [nullsFirstLt]

/-- `nullsFirstLt` is transitive. -/
theorem nullsFirstLt_trans {a b c : Option Int}
    (hab : nullsFirstLt a b) (hbc : nullsFirstLt b c) : nullsFirstLt a c := by
  cases a <;> cases b <;> cases c <;> simp_all [nullsFirstLt]
  omega

/-- "not below" is transitive for `nullsFirstLt` (it is a strict total
order up to equality of values). -/
theorem nullsFirstLt_le_trans {a b c : Option Int}
    (hab : ¬ nullsFirstLt a b) (hbc : ¬ nullsFirstLt b c) :
    ¬ nullsFirstLt a c := by
  cases a <;> cases b <;> cases c <;> simp_all [nullsFirstLt]
  omega

/-- A row produced by `chooseLater` is the candidate or the previous best. -/
theorem chooseLater_cases (r : OTPRow) (o : Option OTPRow) (x : OTPRow)
    (h : chooseLater r o = some x) : x = r ∨ o = some x := by
  cases o with
  | none =>
    simp only [chooseLater, Option.some.injEq] at h
    exact Or.inl h.symm
  | some b =>
    simp only [chooseLater] at h
    split at h <;> simp only [Option.some.injEq] at h
    · exact Or.inl h.symm
    · exact Or.inr (by rw [h])

/-- `chooseLater` never discards everything. -/
theorem chooseLater_ne_none (r : OTPRow) (o : Option OTPRow) :
    chooseLater r o ≠ none := by
  cases o with
  | none => simp [chooseLater]
  | some b =>
    simp only [chooseLater]
    split <;> simp

/-- The row produced by `chooseLater` is not below the candidate, nor below
the previous best. -/
theorem chooseLater_max (r : OTPRow) (o : Option OTPRow) (x : OTPRow)
    (h : chooseLater r o = some x) :
    ¬ nullsFirstLt x.verified_at r.verified_at ∧
    ∀ b, o = some b → ¬ nullsFirstLt x.verified_at b.verified_at := by
  cases o with
  | none =>
    simp only [chooseLater, Option.some.injEq] at h
    subst h
    refine ⟨nullsFirstLt_irrefl _, ?_⟩
    intro b hb
    simp at hb
  | some b0 =>
    simp only [chooseLater] at h
    split at h <;> simp only [Option.some.injEq] at h
    · rename_i hc
      subst h
      refine ⟨nullsFirstLt_irrefl _, ?_⟩
      intro b hb
      injection hb with hb
      subst hb
      intro hcon
      exact nullsFirstLt_irrefl _ (nullsFirstLt_trans hc hcon)
    · rename_i hc
      subst h
      refine ⟨hc, ?_⟩
      intro b hb
      injection hb with hb
      subst hb
      exact nullsFirstLt_irrefl _

/-- If the used-row lookup returns nothing, no row of the table satisfies
its predicate. -/
theorem findLatestVerified_none (identifier token : String) :
    ∀ store : List OTPRow,
      findLatestVerified identifier token store = none →
      ∀ w ∈ store, ¬ verifiedMatch identifier token w := by
  intro store
  induction store with
  | nil => intro _ w hw; simp at hw
  | cons r rest ih =>
    intro h w hw
    rw [findLatestVerified] at h
    by_cases hr : verifiedMatch identifier token r
    · rw [if_pos hr] at h
      exact absurd h (chooseLater_ne_none r _)
    · rw [if_neg hr] at h
      rcases List.mem_cons.mp hw with rfl | hw'
      · exact hr
      · exact ih h w hw'

/-- A row returned by the used-row lookup is in the table and satisfies the
lookup predicate. -/
theorem findLatestVerified_mem (identifier token : String) :
    ∀ (store : List OTPRow) (r : OTPRow),
      findLatestVerified identifier token store = some r →
      r ∈ store ∧ verifiedMatch identifier token r := by
  intro store
  induction store with
  | nil => intro r h; simp [findLatestVerified] at h
  | cons x rest ih =>
    intro r h
    rw [findLatestVerified] at h
    by_cases hx : verifiedMatch identifier token x
    · rw [if_pos hx] at h
      rcases chooseLater_cases x _ r h with rfl | hrest
      · exact ⟨List.mem_cons_self _ _, hx⟩
      · obtain ⟨hm, hvm⟩ := ih r hrest
        exact ⟨List.mem_cons_of_mem _ hm, hvm⟩
    · rw [if_neg hx] at h
      obtain ⟨hm, hvm⟩ := ih r h
      exact ⟨List.mem_cons_of_mem _ hm, hvm⟩

/-- The row returned by the used-row lookup has a maximal `verified_at`
among all rows satisfying the lookup predicate. -/
theorem findLatestVerified_max (identifier token : String) :
    ∀ (store : List OTPRow) (r : OTPRow),
      findLatestVerified identifier token store = some r →
      ∀ w ∈ store, verifiedMatch identifier token w →
        ¬ nullsFirstLt r.verified_at w.verified_at := by
  intro store
  induction store with
  | nil => intro r h; simp [findLatestVerified] at h
  | cons x rest ih =>
    intro r h w hw hwm
    rw [findLatestVerified] at h
    by_cases hx : verifiedMatch identifier token x
    · rw [if_pos hx] at h
      obtain ⟨hxmax, hrestmax⟩ := chooseLater_max x _ r h
      rcases List.mem_cons.mp hw with rfl | hw'
      · exact hxmax
      · rcases hrest : findLatestVerified identifier token rest with _ | b
        · exact absurd hwm
            (findLatestVerified_none identifier token rest hrest w hw')
        · exact nullsFirstLt_le_trans (hrestmax b hrest)
            (ih b hrest w hw' hwm)
    · rw [if_neg hx] at h
      rcases List.mem_cons.mp hw with rfl | hw'
      · exact absurd hwm hx
      · exact ih r h w hw' hwm

/-- C4: `isVerificationValid` returns `true` iff some row for
`(identifier, token)` is used, has a non-null `verified_at`, and
`(now - verified_at) / 1000 / 60 ≤ maxMinutes`; and at the boundary, with a
used row verified at `v`, the check passes at exactly
`verified_at + maxAgeMinutes` (in ms, `v + 60000 * k`) and fails one second
later. -/
theorem isVerificationValid_iff
    (now : Int) (identifier token : String) (m : ℚ) (store : List OTPRow) :
    (isVerificationValid now identifier token m store = true ↔
      ∃ r ∈ store, r.identifier = identifier ∧ r.otp_token = token ∧
        r.is_used = true ∧
        ∃ v, r.verified_at = some v ∧
          ((now - v : Int) : ℚ) / 1000 / 60 ≤ m) ∧
    (∀ (v : Int) (k : Nat) (r : OTPRow),
      r.is_used = true → r.verified_at = some v →
      isVerificationValid (v + 60000 * k) r.identifier r.otp_token
        (k : ℚ) [r] = true ∧
      isVerificationValid (v + 60000 * k + 1000) r.identifier r.otp_token
        (k : ℚ) [r] = false) := by
  constructor
  · rcases hf : findLatestVerified identifier token store with _ | r
    · refine iff_of_false (by simp [isVerificationValid, hf]) ?_
      rintro ⟨w, hw, hid, htok, hused, -⟩
      exact findLatestVerified_none identifier token store hf w hw
        ⟨hid, htok, hused⟩
    · obtain ⟨hmem, hvm⟩ := findLatestVerified_mem identifier token store r hf
      obtain ⟨hid, htok, hused⟩ := hvm
      rcases hva : r.verified_at with _ | vr
      · refine iff_of_false (by simp [isVerificationValid, hf, hva]) ?_
        rintro ⟨w, hw, hwid, hwtok, hwused, vw, hwva, -⟩
        have hmax := findLatestVerified_max identifier token store r hf w hw
          ⟨hwid, hwtok, hwused⟩
        rw [hva, hwva] at hmax
        exact hmax (by simp [nullsFirstLt])
      · simp only [isVerificationValid, hf, hva, decide_eq_true_eq]
        constructor
        · intro hle
          exact ⟨r, hmem, hid, htok, hused, vr, hva, hle⟩
        · rintro ⟨w, hw, hwid, hwtok, hwused, vw, hwva, hwle⟩
          have hmax := findLatestVerified_max identifier token store r hf w hw
            ⟨hwid, hwtok, hwused⟩
          rw [hva, hwva] at hmax
          simp only [nullsFirstLt, not_lt] at hmax
          have hmono : ((now - vr : Int) : ℚ) ≤ ((now - vw : Int) : ℚ) := by
            have hc : (vw : ℚ) ≤ (vr : ℚ) := by exact_mod_cast hmax
            push_cast
            linarith
          calc ((now - vr : Int) : ℚ) / 1000 / 60
              ≤ ((now - vw : Int) : ℚ) / 1000 / 60 := by gcongr
            _ ≤ m := hwle
  · intro v k r hused hva
    have hfr : findLatestVerified r.identifier r.otp_token [r] = some r := by
      simp [findLatestVerified, chooseLater, verifiedMatch, hused]
    refine ⟨?_, ?_⟩
    · simp only [isVerificationValid, hfr, hva, decide_eq_true_eq]
      rw [div_div, div_le_iff₀ (by norm_num : (0 : ℚ) < 1000 * 60)]
      push_cast
      linarith
    · simp only [isVerificationValid, hfr, hva, decide_eq_false_iff_not]
      rw [div_div, div_le_iff₀ (by norm_num : (0 : ℚ) < 1000 * 60)]
      push_cast
      intro hcon
      linarith

/-- Witness for C4's boundary: the sample verified row passes the grant
check at exactly 15 minutes after `verified_at` and fails one second
later. -/
theorem isVerificationValid_iff_witness :
    isVerificationValid ((0 : Int) + 60000 * (15 : Nat))
      rowVerified.identifier rowVerified.otp_token ((15 : Nat) : ℚ)
      [rowVerified] = true ∧
    isVerificationValid ((0 : Int) + 60000 * (15 : Nat) + 1000)
      rowVerified.identifier rowVerified.otp_token ((15 : Nat) : ℚ)
      [rowVerified] = false :=
  (isVerificationValid_iff 0 "x" "y" 0 []).2 0 15 rowVerified rfl rfl

/-- C5: the notification-dispatch send operations report success in every
case — provider not configured, delivery succeeded, or delivery failed
(console fallback). The functions are total, so no provider exception
escapes to the caller. -/
theorem notification_send_always_success
    (enableSMS hasTwilioClient enableEmail hasTransporter : Bool)
    (smsDelivery emailDelivery : Except String String) :
    (sendSMS enableSMS hasTwilioClient smsDelivery).success = true ∧
    (sendEmail enableEmail hasTransporter emailDelivery).success = true := by
  constructor
  · rcases h : enableSMS && hasTwilioClient with _ | _ <;>
      rcases smsDelivery with e | sid <;> simp [sendSMS, h]
  · rcases h : enableEmail && hasTransporter with _ | _ <;>
      rcases emailDelivery with e | mid <;> simp [sendEmail, h]

/-- Counterexample to C6 as stated: a store failure during
`isVerificationValid` (the spec's `isGrantValid`) is absorbed into the
normal result `false`, and a store failure during `invalidateOTPs` (the
spec's `invalidateAll`) is absorbed into a normal completion — neither
reaches the caller as an error. -/
theorem storeFailure_absorbed_counterexample :
    isVerificationValidRun true 0 "+15551234567" "tokC" 15 [] =
      Except.ok false ∧
    invalidateOTPsRun true "+15551234567" [] = Except.ok [] :=
  ⟨rfl, rfl⟩

/-- C6 amended: `verifyOTP` rethrows a store failure as the error
`Failed to verify OTP` (which the route maps to an HTTP 500), but
`isVerificationValid` absorbs a store failure into the normal result
`false`, and `invalidateOTPs` and `cleanupExpiredOTPs` absorb store
failures and return normally. -/
theorem storeFailure_propagation_amended
    (now : Int) (identifier otp token : String) (m : ℚ)
    (store : List OTPRow) (s : OTPStore) :
    verifyOTPRun true now identifier otp token store =
      Except.error "Failed to verify OTP" ∧
    isVerificationValidRun true now identifier token m store =
      Except.ok false ∧
    invalidateOTPsRun true identifier store = Except.ok store ∧
    cleanupExpiredOTPsRun true now s = Except.ok s :=
  ⟨rfl, rfl, rfl, rfl⟩

/-- C7: the scenario — itemized fields monthlyIncome 5000, housing 1500,
utilities 200, transportation 300, groceries 400, other 0, debt payment
200, with the client-computed totals — yields the summary
totalExpenses 2600, netIncome 2400, savingsRate `"48.00"`; and in general
the summary's `savingsRate` is `netIncome / totalIncome × 100` formatted
to two decimals when `totalIncome > 0`, guarded to the number 0 when
`totalIncome` is 0. -/
theorem profileSummary_scenario_and_rate :
    (profileSummary (clientTotals 5000 0 1500 200 300 400 0 200).1
        (clientTotals 5000 0 1500 200 300 400 0 200).2.1
        (clientTotals 5000 0 1500 200 300 400 0 200).2.2 =
      { totalIncome := 5000, totalExpenses := 2600, netIncome := 2400,
        savingsRate := .str "48.00" }) ∧
    (∀ ti te ni : ℚ,
      (ti = 0 → (profileSummary ti te ni).savingsRate = .num 0) ∧
      (0 < ti → (profileSummary ti te ni).savingsRate =
        .str (toFixed2 (ni / ti * 100)))) := by
  refine ⟨?_, fun ti te ni => ⟨fun h => ?_, fun h => ?_⟩⟩
  · have hct : clientTotals 5000 0 1500 200 300 400 0 200 =
        ((5000 : ℚ), (2600 : ℚ), (2400 : ℚ)) := by
      norm_num [clientTotals]
    rw [hct]
    have hfix : toFixed2 (2400 / 5000 * 100) = "48.00" := by
      have h48 : (2400 / 5000 * 100 : ℚ) = 48 := by norm_num
      have hfloor : Int.floor ((48 : ℚ) * 100 + 1 / 2) = 4800 := by
        rw [Int.floor_eq_iff]
        constructor <;> norm_num
      rw [h48]
      simp only [toFixed2, if_neg (by norm_num : ¬ (48 : ℚ) < 0),
        toFixed2Nonneg, hfloor]
      decide
    simp only [profileSummary, if_pos (by norm_num : (0 : ℚ) < 5000), hfix]
  · simp [profileSummary, h]
  · simp [profileSummary, h]

/-- Witness for C7's general clause: the zero-income guard at
`totalIncome = 0` and the formatted rate at the scenario's totals. -/
theorem profileSummary_scenario_and_rate_witness :
    (profileSummary 0 100 (-100)).savingsRate = .num 0 ∧
    (profileSummary 5000 2600 2400).savingsRate =
      .str (toFixed2 (2400 / 5000 * 100)) :=
  ⟨(profileSummary_scenario_and_rate.2 0 100 (-100)).1 rfl,
    (profileSummary_scenario_and_rate.2 5000 2600 2400).2 (by norm_num)⟩

/-- `utcDay` is monotone: later instants never have an earlier UTC day. -/
theorem utcDay_mono {a b : Int} (h : a ≤ b) : utcDay a ≤ utcDay b := by
  unfold utcDay
  rw [Int.fdiv_eq_ediv _ (by decide), Int.fdiv_eq_ediv _ (by decide)]
  exact Int.ediv_le_ediv (by decide) h

/-- Counterexample to C8 as stated: at a sweep instant of day 2, 12:00 UTC,
the row expiring at day 1, 00:00 UTC is 36 hours in the past — more than
24 hours — yet the sweep keeps it, because its expiry's ISO text falls on
the same UTC date as `datetime('now', '-1 day')` and so compares greater
(`T` > space). -/
theorem cleanupExpiredOTPs_counterexample :
    rowStale.expires_at < (216000000 : Int) - DAY_MS ∧
    cleanupExpiredOTPs 216000000
        { otp_codes := [rowStale], email_otp_codes := [],
          custom_otp_codes := [] } =
      { otp_codes := [rowStale], email_otp_codes := [],
        custom_otp_codes := [] } := by
  constructor
  · decide
  · decide

/-- C8 amended: `cleanupExpiredOTPs` deletes, across all three tables,
exactly the rows whose expiry's UTC day strictly precedes the UTC day of
the instant 24 hours before `now` (the TEXT comparison of the ISO expiry
against SQLite's `datetime` format is date-granular); every row it deletes
is indeed more than 24 hours in the past, surviving rows are untouched —
each table becomes a sublist of itself — and running it twice in
succession deletes nothing more. -/
theorem cleanupExpiredOTPs_dateCutoff_idempotent (now : Int) (s : OTPStore) :
    (∀ r : OTPRow,
      (r ∈ (cleanupExpiredOTPs now s).otp_codes ↔
        r ∈ s.otp_codes ∧ ¬ utcDay r.expires_at < utcDay (now - DAY_MS)) ∧
      (r ∈ (cleanupExpiredOTPs now s).email_otp_codes ↔
        r ∈ s.email_otp_codes ∧
          ¬ utcDay r.expires_at < utcDay (now - DAY_MS)) ∧
      (r ∈ (cleanupExpiredOTPs now s).custom_otp_codes ↔
        r ∈ s.custom_otp_codes ∧
          ¬ utcDay r.expires_at < utcDay (now - DAY_MS))) ∧
    (∀ r : OTPRow, utcDay r.expires_at < utcDay (now - DAY_MS) →
      r.expires_at < now - DAY_MS) ∧
    ((cleanupExpiredOTPs now s).otp_codes.Sublist s.otp_codes ∧
      (cleanupExpiredOTPs now s).email_otp_codes.Sublist
        s.email_otp_codes ∧
      (cleanupExpiredOTPs now s).custom_otp_codes.Sublist
        s.custom_otp_codes) ∧
    cleanupExpiredOTPs now (cleanupExpiredOTPs now s) =
      cleanupExpiredOTPs now s := by
  refine ⟨fun r => ⟨?_, ?_, ?_⟩, fun r hday => ?_, ⟨?_, ?_, ?_⟩, ?_⟩
  · simp [cleanupExpiredOTPs, List.mem_filter]
  · simp [cleanupExpiredOTPs, List.mem_filter]
  · simp [cleanupExpiredOTPs, List.mem_filter]
  · by_contra hcon
    push_neg at hcon
    exact absurd hday (not_lt.mpr (utcDay_mono hcon))
  · exact List.filter_sublist _
  · exact List.filter_sublist _
  · exact List.filter_sublist _
  · simp [cleanupExpiredOTPs, List.filter_filter]

/-- Witness for C8 amended: a row expiring at the epoch is deleted by a
sweep at day 2, 12:00 UTC, and is indeed more than 24 hours in the past
then. -/
theorem cleanupExpiredOTPs_dateCutoff_idempotent_witness :
    rowEpoch.expires_at < (216000000 : Int) - DAY_MS :=
  (cleanupExpiredOTPs_dateCutoff_idempotent 216000000
    { otp_codes := [rowEpoch], email_otp_codes := [],
      custom_otp_codes := [] }).2.1 rowEpoch (by decide)

/-- Counterexample to C9 as stated: with account A (email `a@x.com`,
mobile `111`) stored before account B (email `b@x.com`, mobile `222`), a
signup with B's email and A's mobile duplicates both an existing email and
an existing mobile, yet the 400 message cites the mobile number — the
lookup's first matching row (A) matches by mobile only. -/
theorem signupDuplicateCheck_counterexample :
    signupDuplicateCheck [userA, userB] "b@x.com" "111" =
      some (400, "User with this mobile number already exists") := by
  decide

/-- C9 amended: the duplicate branch returns 400 with the message citing
the email exactly when the first stored row matching
`email = ? OR mobile = ?` has the submitted email — in particular whenever
a single account holds both the colliding email and mobile; otherwise the
message cites the mobile number. -/
theorem signupDuplicateCheck_amended
    (users : List User) (email mobile : String) (u : User)
    (hfind : findUserByEmailOrMobile users email mobile = some u)
    (hemail : u.email = email) :
    signupDuplicateCheck users email mobile =
      some (400, "User with this email already exists") := by
  simp [signupDuplicateCheck, hfind, hemail]

/-- Witness for C9 amended: one account holding both the email and the
mobile yields the email-citing message. -/
theorem signupDuplicateCheck_amended_witness :
    signupDuplicateCheck [userA, userB] "a@x.com" "111" =
      some (400, "User with this email already exists") :=
  signupDuplicateCheck_amended [userA, userB] "a@x.com" "111" userA
    (by decide) (by decide)

/-- C10: for any store state and any request whose email matches an
existing account and whose passkey has length at least 8, `set-passkey`
overwrites that account's stored passkey hash and reports success — the
handler takes no session token, password, or verification record, so no
authentication is consulted despite the route's `@access Private`
comment. -/
theorem setPasskey_overwrites_without_auth
    (salt : String) (users : List User) (email passkey : String) (u : User)
    (hemail : email ≠ "")
    (hfind : findUserByEmail users email = some u)
    (hlen : 8 ≤ passkey.length) :
    setPasskey salt users email passkey =
      (.ok "Security passkey set successfully",
        users.map fun w =>
          if w.id = u.id then
            { w with passkey := some (bcryptHashModel salt passkey) }
          else w) := by
  have hpk : passkey ≠ "" := by
    intro h
    rw [h] at hlen
    simp at hlen
  simp [setPasskey, hemail, hpk, Nat.not_lt.mpr hlen, hfind]

/-- Witness for C10: account A gets its passkey overwritten by a bare
request carrying only its email and a new passkey. -/
theorem setPasskey_overwrites_without_auth_witness :
    setPasskey "s0" [userA, userB] "a@x.com" "supersecret" =
      (.ok "Security passkey set successfully",
        [{ userA with passkey := some (bcryptHashModel "s0" "supersecret") },
          userB]) := by
  have h := setPasskey_overwrites_without_auth "s0" [userA, userB]
    "a@x.com" "supersecret" userA (by decide) (by decide) (by decide)
  simpa using h
